import Mathlib

/-!
Verification of the balance computation engine (src/lib/balance-engine.ts).

The engine is a pure computation layer: it derives account balances,
customer/vendor balances and consistency reports from in-memory lists of
transactions, accounts and invoices.  Amount arithmetic is embedded with
exact rationals, and the JavaScript literal 0.01 is embedded as 1/100.
-/

namespace BalanceEngine

/-- Embedded account type field: asset | liability | equity | revenue | expense. -/
inductive AccountType
  | asset
  | liability
  | equity
  | revenue
  | expense
deriving DecidableEq, Repr

/-- Embedded transaction type field: income | expense | transfer. -/
inductive TxnType
  | income
  | expense
  | transfer
deriving DecidableEq, Repr

/-- Embedded contact type field: customer | vendor. -/
inductive ContactType
  | customer
  | vendor
deriving DecidableEq, Repr

/-- Embedded invoice status field: draft | sent | paid | overdue. -/
inductive InvoiceStatus
  | draft
  | sent
  | paid
  | overdue
deriving DecidableEq, Repr

/-- The Transaction record of balance-engine.ts. -/
structure Transaction where
  id : String
  date : String
  description : String
  amount : ℚ
  type : TxnType
  debitAccount : String
  creditAccount : String
  category : Option String := none
  contact : Option String := none
  contactType : Option ContactType := none
deriving DecidableEq, Repr

/-- The Account record of balance-engine.ts (the derived balance field is
never read by the engine and is omitted). -/
structure Account where
  id : String
  name : String
  type : AccountType
  code : String
deriving DecidableEq, Repr

/-- The Invoice record of balance-engine.ts. -/
structure Invoice where
  id : String
  customerId : String
  amount : ℚ
  status : InvoiceStatus
  date : String
  dueDate : String
deriving DecidableEq, Repr

/-- One loop iteration of calculateAccountBalance: the two sequential
if-blocks applied to the running balance. -/
def applyTxn (accountId : String) (accountType : AccountType) (balance : ℚ)
    (t : Transaction) : ℚ :=
  let balance1 :=
    if t.debitAccount = accountId then
      if accountType = .asset ∨ accountType = .expense then balance + t.amount
      else balance - t.amount
    else balance
  if t.creditAccount = accountId then
    if accountType = .asset ∨ accountType = .expense then balance1 - t.amount
    else balance1 + t.amount
  else balance1

/-- calculateAccountBalance: scan every transaction once, starting from 0. -/
def calculateAccountBalance (accountId : String) (accountType : AccountType)
    (transactions : List Transaction) : ℚ :=
  transactions.foldl (applyTxn accountId accountType) 0

/-- Per-transaction contribution as the specification words it: a debit of
the account contributes +amount for asset/expense and -amount otherwise, a
credit contributes -amount for asset/expense and +amount otherwise. -/
def claimContribution (accountId : String) (accountType : AccountType)
    (t : Transaction) : ℚ :=
  (if t.debitAccount = accountId then
     if accountType = .asset ∨ accountType = .expense then t.amount else -t.amount
   else 0)
  + (if t.creditAccount = accountId then
       if accountType = .asset ∨ accountType = .expense then -t.amount else t.amount
     else 0)

lemma applyTxn_eq_add (accountId : String) (accountType : AccountType)
    (balance : ℚ) (t : Transaction) :
    applyTxn accountId accountType balance t
      = balance + claimContribution accountId accountType t := by
  simp only [applyTxn, claimContribution]
  split_ifs <;> ring

lemma foldl_applyTxn (accountId : String) (accountType : AccountType)
    (ts : List Transaction) :
    ∀ b : ℚ, ts.foldl (applyTxn accountId accountType) b
      = b + (ts.map (claimContribution accountId accountType)).sum := by
  induction ts with
  | nil => intro b; simp
  | cons t ts ih =>
      intro b
      simp only [List.foldl_cons, List.map_cons, List.sum_cons, ih,
        applyTxn_eq_add]
      ring

lemma calculateAccountBalance_eq_sum (accountId : String)
    (accountType : AccountType) (ts : List Transaction) :
    calculateAccountBalance accountId accountType ts
      = (ts.map (claimContribution accountId accountType)).sum := by
  simpa using foldl_applyTxn accountId accountType ts 0

/-- The example transaction of the specification scenario:
debit cash, credit revenue, amount 500. -/
def saleTxn : Transaction :=
  { id := "t1", date := "2024-01-01", description := "Sale", amount := 500,
    type := .income, debitAccount := "cash", creditAccount := "revenue" }

/-- Claim C1: calculateAccountBalance returns the sum of the per-transaction
contributions (debit side +amount for asset/expense else -amount, credit
side -amount for asset/expense else +amount), and on the single transaction
debit cash / credit revenue / amount 500 it returns 500 both for the cash
asset account and for the revenue account. -/
theorem account_balance_is_contribution_sum :
    (∀ (accountId : String) (accountType : AccountType)
        (ts : List Transaction),
      calculateAccountBalance accountId accountType ts
        = (ts.map (claimContribution accountId accountType)).sum)
    ∧ calculateAccountBalance "cash" .asset [saleTxn] = 500
    ∧ calculateAccountBalance "revenue" .revenue [saleTxn] = 500 := by
  refine ⟨calculateAccountBalance_eq_sum, ?_, ?_⟩ <;>
    · simp [calculateAccountBalance, applyTxn, saleTxn]

/-- Claim C6: a transaction whose debitAccount equals its creditAccount
contributes net zero: appending it leaves every account balance unchanged,
for every account type. -/
theorem self_transfer_contributes_zero (accountId : String)
    (accountType : AccountType) (t : Transaction) (ts : List Transaction)
    (h : t.debitAccount = t.creditAccount) :
    calculateAccountBalance accountId accountType (ts ++ [t])
      = calculateAccountBalance accountId accountType ts := by
  have hcontrib : claimContribution accountId accountType t = 0 := by
    simp only [claimContribution, h]
    split_ifs <;> ring
  simp [calculateAccountBalance_eq_sum, hcontrib]

/-- Concrete instance of the C6 theorem: a self-transfer on the cash account
appended to the example ledger leaves the cash balance unchanged. -/
def selfTxn : Transaction :=
  { id := "t2", date := "2024-01-02", description := "Self", amount := 70,
    type := .transfer, debitAccount := "cash", creditAccount := "cash" }

theorem self_transfer_contributes_zero_witness :
    selfTxn.debitAccount = selfTxn.creditAccount
    ∧ calculateAccountBalance "cash" .asset ([saleTxn] ++ [selfTxn])
        = calculateAccountBalance "cash" .asset [saleTxn] :=
  ⟨rfl, self_transfer_contributes_zero "cash" .asset selfTxn [saleTxn] rfl⟩

/-- Claim C9: calculateAccountBalance is additive over ledger concatenation
in the exact arithmetic of the embedding. -/
theorem account_balance_additive (accountId : String)
    (accountType : AccountType) (xs ys : List Transaction) :
    calculateAccountBalance accountId accountType (xs ++ ys)
      = calculateAccountBalance accountId accountType xs
        + calculateAccountBalance accountId accountType ys := by
  simp [calculateAccountBalance_eq_sum]

/-- A left fold adding f of each element, as produced by the reduce calls of
the source, equals the starting value plus the sum of the mapped list. -/
lemma foldl_add_map {α : Type} (f : α → ℚ) (l : List α) :
    ∀ b : ℚ, l.foldl (fun s x => s + f x) b = b + (l.map f).sum := by
  induction l with
  | nil => intro b; simp
  | cons x xs ih =>
      intro b
      simp only [List.foldl_cons, List.map_cons, List.sum_cons, ih]
      ring

/-- Result record of validateTransactionBalance. -/
structure ValidationResult where
  isValid : Bool
  totalDebits : ℚ
  totalCredits : ℚ
  difference : ℚ
deriving DecidableEq, Repr

/-- validateTransactionBalance: both totals reduce amount over the same
transaction list, the difference is their absolute difference, validity is
difference below the 0.01 tolerance. -/
def validateTransactionBalance (transactions : List Transaction) :
    ValidationResult :=
  let totalDebits := transactions.foldl (fun sum txn => sum + txn.amount) 0
  let totalCredits := transactions.foldl (fun sum txn => sum + txn.amount) 0
  let difference := |totalDebits - totalCredits|
  { isValid := decide (difference < 1/100)
    totalDebits := totalDebits
    totalCredits := totalCredits
    difference := difference }

/-- Claim C2: for every transaction list, validateTransactionBalance sets
both totals to the sum of amounts, the difference to 0 and isValid to true;
on the empty list it returns isValid true with all numbers 0. -/
theorem validate_transaction_balance_vacuous :
    (∀ ts : List Transaction,
      validateTransactionBalance ts
        = { isValid := true
            totalDebits := (ts.map Transaction.amount).sum
            totalCredits := (ts.map Transaction.amount).sum
            difference := 0 })
    ∧ validateTransactionBalance []
        = { isValid := true, totalDebits := 0, totalCredits := 0,
            difference := 0 } := by
  constructor
  · intro ts
    simp only [validateTransactionBalance, foldl_add_map, zero_add, sub_self,
      abs_zero]
    norm_num
  · simp [validateTransactionBalance]

/-- calculateCustomerBalance: unpaid invoice amounts of the customer minus
income transactions recorded against the customer contact. -/
def calculateCustomerBalance (customerId : String) (invoices : List Invoice)
    (transactions : List Transaction) : ℚ :=
  let customerInvoices := invoices.filter fun inv =>
    decide (inv.customerId = customerId) && decide (inv.status ≠ .paid)
  let customerPayments := transactions.filter fun txn =>
    decide (txn.contact = some customerId)
      && decide (txn.contactType = some .customer)
      && decide (txn.type = .income)
  customerInvoices.foldl (fun sum inv => sum + inv.amount) 0
    - customerPayments.foldl (fun sum txn => sum + txn.amount) 0

/-- Unpaid invoice of amount 200 for customer c1, from the spec scenario. -/
def invC1 : Invoice :=
  { id := "inv1", customerId := "c1", amount := 200, status := .sent,
    date := "2024-01-01", dueDate := "2024-02-01" }

/-- Income transaction of 200 against customer c1, from the spec scenario. -/
def payC1 : Transaction :=
  { id := "t3", date := "2024-01-15", description := "Invoice payment",
    amount := 200, type := .income, debitAccount := "cash",
    creditAccount := "ar", contact := some "c1",
    contactType := some .customer }

/-- Claim C4: calculateCustomerBalance is the sum of amounts of non-paid
invoices of the customer minus the sum of amounts of income transactions
against the customer contact; it returns 0 when both filtered lists are
empty; the result is not clamped and can be negative; and the spec scenario
with an unpaid 200 invoice gives 200, then 0 once the 200 payment lands. -/
theorem customer_balance_formula :
    (∀ (customerId : String) (invoices : List Invoice)
        (transactions : List Transaction),
      calculateCustomerBalance customerId invoices transactions
        = ((invoices.filter fun inv =>
              decide (inv.customerId = customerId)
                && decide (inv.status ≠ .paid)).map Invoice.amount).sum
          - ((transactions.filter fun txn =>
              decide (txn.contact = some customerId)
                && decide (txn.contactType = some .customer)
                && decide (txn.type = .income)).map Transaction.amount).sum)
    ∧ (∀ (customerId : String) (invoices : List Invoice)
        (transactions : List Transaction),
      (invoices.filter fun inv =>
          decide (inv.customerId = customerId)
            && decide (inv.status ≠ .paid)) = [] →
      (transactions.filter fun txn =>
          decide (txn.contact = some customerId)
            && decide (txn.contactType = some .customer)
            && decide (txn.type = .income)) = [] →
      calculateCustomerBalance customerId invoices transactions = 0)
    ∧ calculateCustomerBalance "c1" [invC1] [] = 200
    ∧ calculateCustomerBalance "c1" [invC1] [payC1] = 0
    ∧ calculateCustomerBalance "c1" [] [payC1] = -200 := by
  have hform : ∀ (customerId : String) (invoices : List Invoice)
      (transactions : List Transaction),
      calculateCustomerBalance customerId invoices transactions
        = ((invoices.filter fun inv =>
              decide (inv.customerId = customerId)
                && decide (inv.status ≠ .paid)).map Invoice.amount).sum
          - ((transactions.filter fun txn =>
              decide (txn.contact = some customerId)
                && decide (txn.contactType = some .customer)
                && decide (txn.type = .income)).map
                  Transaction.amount).sum := by
    intro customerId invoices transactions
    simp [calculateCustomerBalance, foldl_add_map]
  refine ⟨hform, ?_, ?_, ?_, ?_⟩
  · intro customerId invoices transactions hinv htxn
    rw [hform, hinv, htxn]
    simp
  · simp [calculateCustomerBalance, invC1]
  · simp [calculateCustomerBalance, invC1, payC1]
  · simp [calculateCustomerBalance, payC1]

theorem customer_balance_formula_witness :
    (([invC1].filter fun inv =>
        decide (inv.customerId = "c9") && decide (inv.status ≠ .paid)) = [])
    ∧ (([payC1].filter fun txn =>
        decide (txn.contact = some "c9")
          && decide (txn.contactType = some .customer)
          && decide (txn.type = .income)) = [])
    ∧ calculateCustomerBalance "c9" [invC1] [payC1] = 0 :=
  ⟨by simp [invC1], by simp [payC1],
    customer_balance_formula.2.1 "c9" [invC1] [payC1]
      (by simp [invC1]) (by simp [payC1])⟩

/-- Boolean test that one character list starts with another. -/
def chStarts : List Char → List Char → Bool
  | [], _ => true
  | _ :: _, [] => false
  | a :: as, b :: bs => a == b && chStarts as bs

/-- Boolean substring containment on character lists, the semantics of the
JavaScript String.includes call. -/
def chContains (needle : List Char) : List Char → Bool
  | [] => chStarts needle []
  | b :: bs => chStarts needle (b :: bs) || chContains needle bs

/-- Embedding of the lowercased substring test of the source: the
description lowered character by character, then searched for payment. -/
def descHasPayment (s : String) : Bool :=
  chContains "payment".toList (s.toList.map Char.toLower)

/-- calculateVendorBalance: expense transactions against the vendor contact
minus transactions against the vendor contact whose description contains
the substring payment, case insensitively. -/
def calculateVendorBalance (vendorId : String)
    (transactions : List Transaction) : ℚ :=
  let vendorExpenses := transactions.filter fun txn =>
    decide (txn.contact = some vendorId)
      && decide (txn.contactType = some .vendor)
      && decide (txn.type = .expense)
  let vendorPayments := transactions.filter fun txn =>
    decide (txn.contact = some vendorId)
      && decide (txn.contactType = some .vendor)
      && descHasPayment txn.description
  vendorExpenses.foldl (fun sum txn => sum + txn.amount) 0
    - vendorPayments.foldl (fun sum txn => sum + txn.amount) 0

lemma calculateVendorBalance_eq (vendorId : String)
    (transactions : List Transaction) :
    calculateVendorBalance vendorId transactions
      = ((transactions.filter fun txn =>
            decide (txn.contact = some vendorId)
              && decide (txn.contactType = some .vendor)
              && decide (txn.type = .expense)).map Transaction.amount).sum
        - ((transactions.filter fun txn =>
            decide (txn.contact = some vendorId)
              && decide (txn.contactType = some .vendor)
              && descHasPayment txn.description).map
                Transaction.amount).sum := by
  simp [calculateVendorBalance, foldl_add_map]

/-- Claim C5: calculateVendorBalance is the sum of amounts of expense
transactions against the vendor contact minus the sum of amounts of
transactions against the vendor contact whose description contains the
substring payment case-insensitively; with both filtered lists empty it
returns 0. -/
theorem vendor_balance_formula :
    (∀ (vendorId : String) (transactions : List Transaction),
      calculateVendorBalance vendorId transactions
        = ((transactions.filter fun txn =>
              decide (txn.contact = some vendorId)
                && decide (txn.contactType = some .vendor)
                && decide (txn.type = .expense)).map Transaction.amount).sum
          - ((transactions.filter fun txn =>
              decide (txn.contact = some vendorId)
                && decide (txn.contactType = some .vendor)
                && descHasPayment txn.description).map
                  Transaction.amount).sum)
    ∧ (∀ (vendorId : String) (transactions : List Transaction),
      (transactions.filter fun txn =>
          decide (txn.contact = some vendorId)
            && decide (txn.contactType = some .vendor)
            && decide (txn.type = .expense)) = [] →
      (transactions.filter fun txn =>
          decide (txn.contact = some vendorId)
            && decide (txn.contactType = some .vendor)
            && descHasPayment txn.description) = [] →
      calculateVendorBalance vendorId transactions = 0) := by
  refine ⟨calculateVendorBalance_eq, ?_⟩
  intro vendorId transactions hexp hpay
  rw [calculateVendorBalance_eq, hexp, hpay]
  simp

theorem vendor_balance_formula_witness :
    (([payC1].filter fun txn =>
        decide (txn.contact = some "v1")
          && decide (txn.contactType = some ContactType.vendor)
          && decide (txn.type = TxnType.expense)) = [])
    ∧ (([payC1].filter fun txn =>
        decide (txn.contact = some "v1")
          && decide (txn.contactType = some ContactType.vendor)
          && descHasPayment txn.description) = [])
    ∧ calculateVendorBalance "v1" [payC1] = 0 :=
  ⟨by simp [payC1], by simp [payC1],
    vendor_balance_formula.2 "v1" [payC1] (by simp [payC1])
      (by simp [payC1])⟩

/-- Claim C8: the payment subtraction of calculateVendorBalance ignores the
type field: appending an income transaction against the vendor contact
whose description contains payment lowers the balance by its amount, and
appending such an expense transaction leaves the balance unchanged. -/
theorem vendor_payment_subtraction_ignores_type (vendorId : String)
    (ts : List Transaction) (t : Transaction)
    (hc : t.contact = some vendorId)
    (hct : t.contactType = some .vendor)
    (hd : descHasPayment t.description = true) :
    (t.type = .income →
      calculateVendorBalance vendorId (ts ++ [t])
        = calculateVendorBalance vendorId ts - t.amount)
    ∧ (t.type = .expense →
      calculateVendorBalance vendorId (ts ++ [t])
        = calculateVendorBalance vendorId ts) := by
  constructor
  · intro hty
    simp only [calculateVendorBalance_eq, List.filter_append, List.map_append,
      List.sum_append]
    simp [hc, hct, hd, hty]
    ring
  · intro hty
    simp only [calculateVendorBalance_eq, List.filter_append, List.map_append,
      List.sum_append]
    simp [hc, hct, hd, hty]

/-- An income transaction against vendor v1 whose description mentions a
payment, used to instantiate the C8 theorem. -/
def vendorPayTxn : Transaction :=
  { id := "t4", date := "2024-02-01", description := "Payment to supplier",
    amount := 80, type := .income, debitAccount := "ap",
    creditAccount := "cash", contact := some "v1",
    contactType := some .vendor }

theorem vendor_payment_subtraction_ignores_type_witness :
    vendorPayTxn.contact = some "v1"
    ∧ vendorPayTxn.contactType = some ContactType.vendor
    ∧ descHasPayment vendorPayTxn.description = true
    ∧ (vendorPayTxn.type = .income →
        calculateVendorBalance "v1" ([] ++ [vendorPayTxn])
          = calculateVendorBalance "v1" [] - vendorPayTxn.amount) :=
  ⟨rfl, rfl, by decide,
    (vendor_payment_subtraction_ignores_type "v1" [] vendorPayTxn rfl rfl
      (by decide)).1⟩

/-- Lookup in the association-list model of a JavaScript Map: the value
stored under the first matching key, none when the key is absent. -/
def mapGet : List (String × ℚ) → String → Option ℚ
  | [], _ => none
  | p :: rest, k => if p.1 = k then some p.2 else mapGet rest k

/-- Insertion in the association-list model of a JavaScript Map: replace
the value under an existing key in place, else append the new entry. -/
def mapSet (m : List (String × ℚ)) (k : String) (v : ℚ) :
    List (String × ℚ) :=
  if m.any fun p => decide (p.1 = k) then
    m.map fun p => (p.1, if p.1 = k then v else p.2)
  else m ++ [(k, v)]

/-- Result record of getAccountTypeSummary, one bucket per account type. -/
structure TypeSummary where
  asset : ℚ
  liability : ℚ
  equity : ℚ
  revenue : ℚ
  expense : ℚ
deriving DecidableEq, Repr

/-- The summary update of one loop iteration: summary[account.type] += v. -/
def setBucket (s : TypeSummary) (ty : AccountType) (v : ℚ) : TypeSummary :=
  match ty with
  | .asset => { s with asset := s.asset + v }
  | .liability => { s with liability := s.liability + v }
  | .equity => { s with equity := s.equity + v }
  | .revenue => { s with revenue := s.revenue + v }
  | .expense => { s with expense := s.expense + v }

/-- getAccountTypeSummary: fold every account into its type bucket, with a
missing map entry contributing 0 (balances.get(id) or 0). -/
def getAccountTypeSummary (accounts : List Account)
    (balances : List (String × ℚ)) : TypeSummary :=
  accounts.foldl
    (fun summary account =>
      setBucket summary account.type ((mapGet balances account.id).getD 0))
    ⟨0, 0, 0, 0, 0⟩

/-- Projection of the bucket of a given account type from a summary. -/
def bucketOf (s : TypeSummary) : AccountType → ℚ
  | .asset => s.asset
  | .liability => s.liability
  | .equity => s.equity
  | .revenue => s.revenue
  | .expense => s.expense

/-- Bucket total as the specification words it: the sum, over the accounts
of the given type, of the balance looked up in the map, an absent id
contributing 0. -/
def bucketSum (ty : AccountType) (accounts : List Account)
    (balances : List (String × ℚ)) : ℚ :=
  ((accounts.filter fun a => decide (a.type = ty)).map
    (fun a => (mapGet balances a.id).getD 0)).sum

lemma bucketOf_setBucket (s : TypeSummary) (ty : AccountType) (v : ℚ)
    (ty2 : AccountType) :
    bucketOf (setBucket s ty v) ty2
      = bucketOf s ty2 + (if ty = ty2 then v else 0) := by
  cases ty <;> cases ty2 <;> simp [setBucket, bucketOf]

lemma bucketOf_foldl (balances : List (String × ℚ))
    (accounts : List Account) :
    ∀ (init : TypeSummary) (ty : AccountType),
      bucketOf
        (accounts.foldl
          (fun summary account =>
            setBucket summary account.type
              ((mapGet balances account.id).getD 0)) init) ty
        = bucketOf init ty + bucketSum ty accounts balances := by
  induction accounts with
  | nil => intro init ty; simp [bucketSum]
  | cons a as ih =>
      intro init ty
      simp only [List.foldl_cons, ih, bucketOf_setBucket, bucketSum,
        List.filter_cons]
      by_cases h : a.type = ty
      · simp [h]
        ring
      · simp [h]

lemma summary_bucket (accounts : List Account)
    (balances : List (String × ℚ)) (ty : AccountType) :
    bucketOf (getAccountTypeSummary accounts balances) ty
      = bucketSum ty accounts balances := by
  cases ty with
  | asset =>
      simpa [getAccountTypeSummary, bucketOf] using
        bucketOf_foldl balances accounts ⟨0, 0, 0, 0, 0⟩ AccountType.asset
  | liability =>
      simpa [getAccountTypeSummary, bucketOf] using
        bucketOf_foldl balances accounts ⟨0, 0, 0, 0, 0⟩ AccountType.liability
  | equity =>
      simpa [getAccountTypeSummary, bucketOf] using
        bucketOf_foldl balances accounts ⟨0, 0, 0, 0, 0⟩ AccountType.equity
  | revenue =>
      simpa [getAccountTypeSummary, bucketOf] using
        bucketOf_foldl balances accounts ⟨0, 0, 0, 0, 0⟩ AccountType.revenue
  | expense =>
      simpa [getAccountTypeSummary, bucketOf] using
        bucketOf_foldl balances accounts ⟨0, 0, 0, 0, 0⟩ AccountType.expense

/-- Claim C7: each field of getAccountTypeSummary is the sum, over the
accounts of that type, of the balance looked up in the map, with an id
missing from the map contributing 0 to its bucket. -/
theorem account_type_summary_buckets (accounts : List Account)
    (balances : List (String × ℚ)) :
    (getAccountTypeSummary accounts balances).asset
        = bucketSum .asset accounts balances
    ∧ (getAccountTypeSummary accounts balances).liability
        = bucketSum .liability accounts balances
    ∧ (getAccountTypeSummary accounts balances).equity
        = bucketSum .equity accounts balances
    ∧ (getAccountTypeSummary accounts balances).revenue
        = bucketSum .revenue accounts balances
    ∧ (getAccountTypeSummary accounts balances).expense
        = bucketSum .expense accounts balances :=
  ⟨summary_bucket accounts balances .asset,
   summary_bucket accounts balances .liability,
   summary_bucket accounts balances .equity,
   summary_bucket accounts balances .revenue,
   summary_bucket accounts balances .expense⟩

/-- Result record of verifyAccountingEquation. -/
structure EquationResult where
  isBalanced : Bool
  assets : ℚ
  liabilities : ℚ
  equity : ℚ
  difference : ℚ
deriving DecidableEq, Repr

/-- verifyAccountingEquation: assets against liabilities plus equity, with
the 0.01 absolute tolerance. -/
def verifyAccountingEquation (accounts : List Account)
    (balances : List (String × ℚ)) : EquationResult :=
  let summary := getAccountTypeSummary accounts balances
  let assets := summary.asset
  let liabilitiesAndEquity := summary.liability + summary.equity
  let difference := |assets - liabilitiesAndEquity|
  { isBalanced := decide (difference < 1/100)
    assets := assets
    liabilities := summary.liability
    equity := summary.equity
    difference := difference }

/-- Accounts used by the accounting-equation examples: one asset, one
liability, one equity account. -/
def eqAccounts : List Account :=
  [⟨"a1", "Cash", .asset, "1000"⟩, ⟨"l1", "Loan", .liability, "2000"⟩,
   ⟨"e1", "Capital", .equity, "3000"⟩]

/-- Balances asset 1000, liability 400, equity 600: the equation holds. -/
def eqBalances1 : List (String × ℚ) := [("a1", 1000), ("l1", 400), ("e1", 600)]

/-- Balances asset 1000, liability 400, equity 500: off by 100. -/
def eqBalances2 : List (String × ℚ) := [("a1", 1000), ("l1", 400), ("e1", 500)]

/-- Claim C3: verifyAccountingEquation returns the three type sums, the
absolute difference between assets and liabilities plus equity, and
isBalanced exactly when that difference is below 0.01; on the example
balances 1000/400/600 it balances with difference 0, and on 1000/400/500
it does not balance, with difference 100. -/
theorem accounting_equation_verified :
    (∀ (accounts : List Account) (balances : List (String × ℚ)),
      (verifyAccountingEquation accounts balances).assets
          = bucketSum .asset accounts balances
      ∧ (verifyAccountingEquation accounts balances).liabilities
          = bucketSum .liability accounts balances
      ∧ (verifyAccountingEquation accounts balances).equity
          = bucketSum .equity accounts balances
      ∧ (verifyAccountingEquation accounts balances).difference
          = |(verifyAccountingEquation accounts balances).assets
              - ((verifyAccountingEquation accounts balances).liabilities
                + (verifyAccountingEquation accounts balances).equity)|
      ∧ ((verifyAccountingEquation accounts balances).isBalanced = true
          ↔ (verifyAccountingEquation accounts balances).difference < 1/100))
    ∧ (verifyAccountingEquation eqAccounts eqBalances1).isBalanced = true
    ∧ (verifyAccountingEquation eqAccounts eqBalances1).difference = 0
    ∧ (verifyAccountingEquation eqAccounts eqBalances2).isBalanced = false
    ∧ (verifyAccountingEquation eqAccounts eqBalances2).difference = 100 := by
  refine ⟨?_, ?_, ?_, ?_, ?_⟩
  · intro accounts balances
    refine ⟨?_, ?_, ?_, ?_, ?_⟩
    · simpa [verifyAccountingEquation, bucketOf] using
        summary_bucket accounts balances .asset
    · simpa [verifyAccountingEquation, bucketOf] using
        summary_bucket accounts balances .liability
    · simpa [verifyAccountingEquation, bucketOf] using
        summary_bucket accounts balances .equity
    · simp [verifyAccountingEquation]
    · simp [verifyAccountingEquation]
  · simp [verifyAccountingEquation, getAccountTypeSummary, setBucket,
      eqAccounts, eqBalances1, mapGet]
    norm_num
  · simp [verifyAccountingEquation, getAccountTypeSummary, setBucket,
      eqAccounts, eqBalances1, mapGet]
    norm_num
  · simp [verifyAccountingEquation, getAccountTypeSummary, setBucket,
      eqAccounts, eqBalances2, mapGet]
    rw [show |(1000 : ℚ) - (400 + 500)| = 100 from by
      rw [abs_of_pos] <;> norm_num]
    norm_num
  · simp [verifyAccountingEquation, getAccountTypeSummary, setBucket,
      eqAccounts, eqBalances2, mapGet]
    rw [show |(1000 : ℚ) - (400 + 500)| = 100 from by
      rw [abs_of_pos] <;> norm_num]

/-- calculateAllAccountBalances: fold over the accounts, setting each id to
its calculated balance in the result map. -/
def calculateAllAccountBalances (accounts : List Account)
    (transactions : List Transaction) : List (String × ℚ) :=
  accounts.foldl
    (fun balances account =>
      mapSet balances account.id
        (calculateAccountBalance account.id account.type transactions))
    []

lemma mapGet_map_replace (k : String) (v : ℚ) (k2 : String) (h : k2 ≠ k) :
    ∀ m : List (String × ℚ),
      mapGet (m.map fun p => (p.1, if p.1 = k then v else p.2)) k2
        = mapGet m k2 := by
  intro m
  induction m with
  | nil => rfl
  | cons p rest ih =>
      by_cases hk2 : p.1 = k2
      · have hk : ¬ p.1 = k := by
          rw [hk2]
          exact h
        simp [mapGet, hk2, hk, h]
      · simp [mapGet, hk2, ih]

lemma mapGet_map_hit (k : String) (v : ℚ) :
    ∀ m : List (String × ℚ), (m.any fun p => decide (p.1 = k)) = true →
      mapGet (m.map fun p => (p.1, if p.1 = k then v else p.2)) k
        = some v := by
  intro m
  induction m with
  | nil => simp
  | cons p rest ih =>
      intro hany
      by_cases hp : p.1 = k
      · simp [mapGet, hp]
      · have hrest : (rest.any fun p => decide (p.1 = k)) = true := by
          simpa [hp] using hany
        simp [mapGet, hp, ih hrest]

lemma mapGet_append_miss (k : String) (v : ℚ) :
    ∀ m : List (String × ℚ), (m.any fun p => decide (p.1 = k)) = false →
      mapGet (m ++ [(k, v)]) k = some v := by
  intro m
  induction m with
  | nil => simp [mapGet]
  | cons p rest ih =>
      intro hany
      have hp : ¬ p.1 = k := by
        intro he
        simp [he] at hany
      have hrest : (rest.any fun p => decide (p.1 = k)) = false := by
        simpa [hp] using hany
      simp [mapGet, hp, ih hrest]

lemma mapGet_append_other (k : String) (v : ℚ) (k2 : String) (h : k2 ≠ k) :
    ∀ m : List (String × ℚ),
      mapGet (m ++ [(k, v)]) k2 = mapGet m k2 := by
  intro m
  induction m with
  | nil => simp [mapGet, Ne.symm h]
  | cons p rest ih =>
      by_cases hk2 : p.1 = k2
      · simp [mapGet, hk2]
      · simp [mapGet, hk2, ih]

lemma mapGet_mapSet_self (m : List (String × ℚ)) (k : String) (v : ℚ) :
    mapGet (mapSet m k v) k = some v := by
  unfold mapSet
  by_cases hany : (m.any fun p => decide (p.1 = k)) = true
  · rw [if_pos hany]
    exact mapGet_map_hit k v m hany
  · rw [if_neg hany]
    exact mapGet_append_miss k v m (Bool.not_eq_true _ ▸ hany)

lemma mapGet_mapSet_ne (m : List (String × ℚ)) (k : String) (v : ℚ)
    (k2 : String) (h : k2 ≠ k) :
    mapGet (mapSet m k v) k2 = mapGet m k2 := by
  unfold mapSet
  by_cases hany : (m.any fun p => decide (p.1 = k)) = true
  · rw [if_pos hany]
    exact mapGet_map_replace k v k2 h m
  · rw [if_neg hany]
    exact mapGet_append_other k v k2 h m

lemma mapGet_foldl_absent (transactions : List Transaction) (k : String) :
    ∀ (accounts : List Account) (m : List (String × ℚ)),
      k ∉ accounts.map Account.id →
      mapGet
        (accounts.foldl
          (fun balances account =>
            mapSet balances account.id
              (calculateAccountBalance account.id account.type transactions))
          m) k
        = mapGet m k := by
  intro accounts
  induction accounts with
  | nil => intro m _; rfl
  | cons a as ih =>
      intro m hk
      have hka : k ≠ a.id := by
        intro he
        exact hk (by simp [he])
      have hkas : k ∉ as.map Account.id := by
        intro he
        exact hk (by simp [he])
      simp only [List.foldl_cons]
      rw [ih _ hkas]
      exact mapGet_mapSet_ne m a.id _ k hka

lemma calcAll_foldl_mapGet (transactions : List Transaction) :
    ∀ (accounts : List Account), (accounts.map Account.id).Nodup →
      ∀ m : List (String × ℚ), ∀ a ∈ accounts,
        mapGet
          (accounts.foldl
            (fun balances account =>
              mapSet balances account.id
                (calculateAccountBalance account.id account.type
                  transactions)) m) a.id
          = some (calculateAccountBalance a.id a.type transactions) := by
  intro accounts
  induction accounts with
  | nil => intro _ m a ha; exact absurd ha (List.not_mem_nil a)
  | cons b as ih =>
      intro hnd m a ha
      have hnd1 : (b.id :: as.map Account.id).Nodup := by
        simpa using hnd
      have hnd2 : b.id ∉ as.map Account.id ∧ (as.map Account.id).Nodup :=
        List.nodup_cons.mp hnd1
      rcases List.mem_cons.mp ha with hab | has
      · subst hab
        simp only [List.foldl_cons]
        rw [mapGet_foldl_absent transactions a.id as _ hnd2.1]
        exact mapGet_mapSet_self m a.id _
      · simp only [List.foldl_cons]
        exact ih hnd2.2 _ a has

/-- The duplicate-id account list of the counterexample: both accounts have
id x, first as an asset, second as a liability. -/
def dupAccounts : List Account :=
  [⟨"x", "Cash", .asset, "100"⟩, ⟨"x", "CashDup", .liability, "200"⟩]

/-- A transaction debiting the duplicated account x by 1. -/
def dupTxn : Transaction :=
  { id := "t9", date := "2024-03-01", description := "Probe", amount := 1,
    type := .transfer, debitAccount := "x", creditAccount := "y" }

/-- Counterexample to claim C10 as stated: with two accounts sharing id x
(asset, then liability), the returned map sends x to the balance of the
later liability account, -1, while calculateAccountBalance for the asset
account in the input gives 1, so that account id is not mapped to
calculateAccountBalance of that account. -/
theorem all_account_balances_claim_counterexample :
    (⟨"x", "Cash", AccountType.asset, "100"⟩ : Account) ∈ dupAccounts
    ∧ calculateAccountBalance "x" AccountType.asset [dupTxn] = 1
    ∧ mapGet (calculateAllAccountBalances dupAccounts [dupTxn]) "x"
        = some (-1)
    ∧ mapGet (calculateAllAccountBalances dupAccounts [dupTxn]) "x"
        ≠ some (calculateAccountBalance "x" AccountType.asset [dupTxn]) := by
  have h1 : calculateAccountBalance "x" AccountType.asset [dupTxn] = 1 := by
    simp [calculateAccountBalance, applyTxn, dupTxn]
  have h2 : mapGet (calculateAllAccountBalances dupAccounts [dupTxn]) "x"
      = some (-1) := by
    simp [calculateAllAccountBalances, dupAccounts, mapSet, mapGet,
      calculateAccountBalance, applyTxn, dupTxn]
  refine ⟨by simp [dupAccounts], h1, h2, ?_⟩
  rw [h1, h2]
  intro hcontra
  have : (-1 : ℚ) = 1 := Option.some.inj hcontra
  norm_num at this

/-- Claim C10 amended: calculateAllAccountBalances is deterministic (equal
inputs give equal maps), and when the account ids are pairwise distinct
each account id is mapped to calculateAccountBalance of that account. -/
theorem all_account_balances_deterministic :
    (∀ (as1 as2 : List Account) (ts1 ts2 : List Transaction),
      as1 = as2 → ts1 = ts2 →
      calculateAllAccountBalances as1 ts1
        = calculateAllAccountBalances as2 ts2)
    ∧ (∀ (accounts : List Account) (transactions : List Transaction),
      (accounts.map Account.id).Nodup →
      ∀ a ∈ accounts,
        mapGet (calculateAllAccountBalances accounts transactions) a.id
          = some (calculateAccountBalance a.id a.type transactions)) := by
  constructor
  · intro as1 as2 ts1 ts2 h1 h2
    rw [h1, h2]
  · intro accounts transactions hnd a ha
    exact calcAll_foldl_mapGet transactions accounts hnd [] a ha

/-- The single asset account used to instantiate the C10 theorem. -/
def wAccounts : List Account := [⟨"a", "Cash", .asset, "100"⟩]

theorem all_account_balances_deterministic_witness :
    calculateAllAccountBalances wAccounts [saleTxn]
        = calculateAllAccountBalances wAccounts [saleTxn]
    ∧ (wAccounts.map Account.id).Nodup
    ∧ mapGet (calculateAllAccountBalances wAccounts [saleTxn])
        (⟨"a", "Cash", AccountType.asset, "100"⟩ : Account).id
        = some (calculateAccountBalance
            (⟨"a", "Cash", AccountType.asset, "100"⟩ : Account).id
            (⟨"a", "Cash", AccountType.asset, "100"⟩ : Account).type
            [saleTxn]) :=
  ⟨all_account_balances_deterministic.1 wAccounts wAccounts [saleTxn]
      [saleTxn] rfl rfl,
   by simp [wAccounts],
   all_account_balances_deterministic.2 wAccounts [saleTxn]
     (by simp [wAccounts]) ⟨"a", "Cash", AccountType.asset, "100"⟩
     (by simp [wAccounts])⟩

end BalanceEngine
